import Mathlib

/-!
# Mirage: a shallow embedding of `src/mirage.cpp`

The add-on keeps a handful of process-wide variables (two window handles, the
mirror swap chain pointer, the hidden anchor, the settings) and reacts to
host events by calling Win32, DXGI and Direct3D 11.  The embedding keeps the
add-on's variables and the part of the outside world those calls act on in a
single `State`, and every effectful call is also appended to `State.trace`.

Conventions.
* Handles and COM pointers are natural numbers, `0` is `nullptr`.
* Objects handed in by the host (device, swap chain, effect runtime, resource
  view) are valid by the host's contract and are plain records.  The add-on's
  own pointer `mirror_swap_chain` is nullable; calling a method through it
  when it is null, or when the object behind it was released, is a `Fault`.
* Window and swap chain creation succeed and return fresh non-null handles.
* `RECT display_rect;` in `display_changed` has no initialiser; its
  indeterminate content is an explicit argument (`uninit`).
-/

namespace Mirage

/-! ## Data model -/

/-- Window handle, `0` is `nullptr`. -/
abbrev HWND := Nat

/-- COM interface pointer, `0` is `nullptr`. -/
abbrev Ptr := Nat

/-- Win32 `RECT`. -/
structure RECT where
  left : Int
  top : Int
  right : Int
  bottom : Int
deriving DecidableEq, Repr

/-- Rendering API of a device, `reshade::api::device_api`. -/
inductive device_api where
  | d3d9
  | d3d10
  | d3d11
  | d3d12
  | opengl
  | vulkan
deriving DecidableEq, Repr

/-- Values of `DXGI_SWAP_EFFECT`. -/
inductive DXGI_SWAP_EFFECT where
  | DISCARD
  | SEQUENTIAL
  | FLIP_SEQUENTIAL
  | FLIP_DISCARD
deriving DecidableEq, Repr

/-- Values of `DXGI_SCALING`. -/
inductive DXGI_SCALING where
  | STRETCH
  | NONE
  | ASPECT_RATIO_STRETCH
deriving DecidableEq, Repr

/-- The flag `DXGI_USAGE_RENDER_TARGET_OUTPUT`. -/
def DXGI_USAGE_RENDER_TARGET_OUTPUT : Nat := 32

/-- Descriptor `DXGI_SWAP_CHAIN_DESC1`; `SampleDesc` is flattened into
`SampleCount` and `SampleQuality`. -/
structure DXGI_SWAP_CHAIN_DESC1 where
  Width : Nat
  Height : Nat
  Format : Nat
  Stereo : Bool
  SampleCount : Nat
  SampleQuality : Nat
  BufferUsage : Nat
  BufferCount : Nat
  Scaling : DXGI_SCALING
  SwapEffect : DXGI_SWAP_EFFECT
  AlphaMode : Nat
  Flags : Nat
deriving DecidableEq, Repr

/-- The `SWP_*` flag set passed to `SetWindowPos`, one field per flag the
source uses. -/
structure SWP where
  NOSIZE : Bool
  NOMOVE : Bool
  NOZORDER : Bool
  NOACTIVATE : Bool
  SHOWWINDOW : Bool
deriving DecidableEq, Repr

/-- The `hWndParent` argument of `CreateWindowExW`. -/
inductive Parent where
  | HWND_MESSAGE
  | window (h : HWND)
deriving DecidableEq, Repr

/-- The `hWndInsertAfter` argument of `SetWindowPos`. -/
inductive InsertAfter where
  | HWND_TOP
  | HWND_BOTTOM
  | window (h : HWND)
deriving DecidableEq, Repr

/-- A window of the add-on's window class. -/
structure Window where
  hwnd : HWND
  parent : Parent
  x : Int
  y : Int
  cx : Int
  cy : Int
  visible : Bool
deriving DecidableEq, Repr

/-- A live swap chain created by the add-on. -/
structure SwapChainObj where
  ptr : Ptr
  hwnd : HWND
  desc : DXGI_SWAP_CHAIN_DESC1
deriving DecidableEq, Repr

/-- The four persisted values written by `save_settings`. -/
structure Settings where
  after_effects : Bool
  hide_window : Bool
  window_x : Int
  window_y : Int
deriving DecidableEq, Repr

/-- Reference-counted objects the add-on takes references on. -/
inductive ComObj where
  | swap_chain (p : Ptr)
  | back_buffer (sc : Ptr) (index : Nat)
  | view_resource (view : Nat)
  | device (p : Ptr)
  | factory (p : Ptr)
deriving DecidableEq, Repr

/-- Callbacks the add-on registers with the host. -/
inductive Callback where
  | init_device
  | destroy_device
  | init_swapchain
  | reshade_begin_effects
  | reshade_finish_effects
  | draw_settings
deriving DecidableEq, Repr

/-- Effectful calls made by the add-on, in the order they are issued. -/
inductive Call where
  | RegisterClassExW
  | CreateWindowExW (parent : Parent) (result : HWND)
  | SetWindowPos (hwnd : HWND) (after : InsertAfter) (x y cx cy : Int) (flags : SWP)
  | DestroyWindow (hwnd : HWND)
  | UnregisterClassW
  | register_event (cb : Callback)
  | register_overlay (cb : Callback)
  | log_message
  | ini_write (file : Settings)
  | GetDevice (result : Ptr)
  | CreateDXGIFactory1 (result : Ptr)
  | CreateSwapChainForHwnd (device : Ptr) (hwnd : HWND) (desc : DXGI_SWAP_CHAIN_DESC1) (result : Ptr)
  | ResizeBuffers (sc : Ptr) (count width height format flags : Nat)
  | GetResource (view : Nat)
  | GetBuffer (sc : Ptr) (index : Nat)
  | CopyResource (context : Ptr) (dst src : ComObj)
  | Release (obj : ComObj)
  | Present (sc : Ptr) (sync flags : Nat)
deriving DecidableEq, Repr

/-- Outcome of calling a method through a pointer that does not point to a
live object. -/
inductive Fault where
  | null_dereference
  | dangling_pointer
deriving DecidableEq, Repr

/-- Host object `reshade::api::device`. -/
structure device where
  api : device_api
deriving DecidableEq, Repr

/-- Host object `reshade::api::swapchain`: its window, what `GetDesc1` and
`GetDevice` report for the native swap chain, and what `GetClientRect`
reports for its window. -/
structure swapchain where
  hwnd : HWND
  desc : DXGI_SWAP_CHAIN_DESC1
  native_device : Ptr
  client_rect : RECT
deriving DecidableEq, Repr

/-- Host object `reshade::api::effect_runtime`: its window and the native
immediate context of its command queue. -/
structure effect_runtime where
  hwnd : HWND
  context : Ptr
deriving DecidableEq, Repr

/-- Host value `reshade::api::resource_view`. -/
structure resource_view where
  handle : Nat
deriving DecidableEq, Repr

/-- The add-on's variables (`global state` and `settings` in the source)
followed by the part of the outside world its calls act on. -/
structure State where
  owner_window : HWND
  mirror_window : HWND
  mirror_swap_chain : Ptr
  hidden_x : Int
  hidden_y : Int
  multisampled : Bool
  after_effects : Bool
  hide_window : Bool
  visible_x : Int
  visible_y : Int
  class_registered : Bool
  windows : List Window
  chains : List SwapChainObj
  registered : List Callback
  settings_file : Option Settings
  fresh : Nat
  trace : List Call
deriving DecidableEq, Repr

/-- State once `AddonInit` has returned with default settings: zeroed
globals, `init_device` registered, the defaults written back to disk. -/
def initial : State :=
  { owner_window := 0
    mirror_window := 0
    mirror_swap_chain := 0
    hidden_x := 0
    hidden_y := 0
    multisampled := false
    after_effects := true
    hide_window := true
    visible_x := 0
    visible_y := 0
    class_registered := false
    windows := []
    chains := []
    registered := [Callback.init_device]
    settings_file := some ⟨true, true, 0, 0⟩
    fresh := 0
    trace := [] }

/-! ## Outside world -/

/-- Two's complement wrap of a 32-bit signed result. -/
def wrap32 (i : Int) : Int :=
  (i + 2147483648) % 4294967296 - 2147483648

/-- Append one call to the trace. -/
def emit (c : Call) (s : State) : State :=
  { s with trace := s.trace ++ [c] }

/-- Win32 `IsRectEmpty`. -/
def IsRectEmpty (r : RECT) : Bool :=
  decide (r.right ≤ r.left) || decide (r.bottom ≤ r.top)

/-- Win32 `UnionRect`: an empty operand is ignored, two empty operands give
the zero rectangle. -/
def UnionRect (src1 src2 : RECT) : RECT :=
  if IsRectEmpty src1 then
    if IsRectEmpty src2 then ⟨0, 0, 0, 0⟩ else src2
  else if IsRectEmpty src2 then src1
  else ⟨min src1.left src2.left, min src1.top src2.top,
        max src1.right src2.right, max src1.bottom src2.bottom⟩

/-- Win32 `EnumDisplayMonitors` with the lambda of `display_changed`: the
callback runs once per monitor and folds its rectangle into the accumulator. -/
def EnumDisplayMonitors (monitors : List RECT) (param_rect : RECT) : RECT :=
  monitors.foldl (fun acc rect => UnionRect acc rect) param_rect

/-- Win32 `SetWindowPos` on the windows of the add-on; a handle that names
no window changes nothing. -/
def SetWindowPos (hwnd : HWND) (after : InsertAfter) (x y cx cy : Int) (flags : SWP)
    (s : State) : State :=
  emit (Call.SetWindowPos hwnd after x y cx cy flags)
    { s with windows := s.windows.map (fun w =>
        if w.hwnd = hwnd then
          { w with
            x := if flags.NOMOVE then w.x else x
            y := if flags.NOMOVE then w.y else y
            cx := if flags.NOSIZE then w.cx else cx
            cy := if flags.NOSIZE then w.cy else cy
            visible := flags.SHOWWINDOW || w.visible }
        else w) }

/-- Win32 `RegisterClassExW`. -/
def RegisterClassExW (s : State) : State :=
  emit Call.RegisterClassExW { s with class_registered := true }

/-- Win32 `UnregisterClassW`. -/
def UnregisterClassW (s : State) : State :=
  emit Call.UnregisterClassW { s with class_registered := false }

/-- Win32 `CreateWindowExW` with position and size `0, 0, 0, 0`: returns a
fresh non-null handle. -/
def CreateWindowExW (parent : Parent) (s : State) : HWND × State :=
  let h := s.fresh + 1
  (h, emit (Call.CreateWindowExW parent h)
    { s with windows := s.windows ++ [⟨h, parent, 0, 0, 0, 0, false⟩], fresh := s.fresh + 1 })

/-- Win32 `DestroyWindow`: removes the window and the windows it owns. -/
def DestroyWindow (hwnd : HWND) (s : State) : State :=
  emit (Call.DestroyWindow hwnd)
    { s with windows := s.windows.filter (fun w =>
        !(decide (w.hwnd = hwnd) || decide (w.parent = Parent.window hwnd))) }

/-- Host call `reshade::register_event`. -/
def register_event (cb : Callback) (s : State) : State :=
  emit (Call.register_event cb) { s with registered := s.registered ++ [cb] }

/-- Host call `reshade::register_overlay`. -/
def register_overlay (cb : Callback) (s : State) : State :=
  emit (Call.register_overlay cb) { s with registered := s.registered ++ [cb] }

/-- The live swap chain object behind a pointer, when there is one. -/
def find_chain (p : Ptr) (s : State) : Option SwapChainObj :=
  s.chains.find? (fun o => o.ptr == p)

/-- Dereference a swap chain pointer for a method call. -/
def deref (p : Ptr) (s : State) : Except Fault SwapChainObj :=
  if p = 0 then Except.error Fault.null_dereference
  else
    match find_chain p s with
    | some o => Except.ok o
    | none => Except.error Fault.dangling_pointer

/-- DXGI `IDXGISwapChain::GetDevice`: takes a reference on the device. -/
def GetDevice (sc : swapchain) (s : State) : Ptr × State :=
  (sc.native_device, emit (Call.GetDevice sc.native_device) s)

/-- DXGI `CreateDXGIFactory1`: a new factory object. -/
def CreateDXGIFactory1 (s : State) : Ptr × State :=
  let f := s.fresh + 1
  (f, emit (Call.CreateDXGIFactory1 f) { s with fresh := s.fresh + 1 })

/-- DXGI `IDXGIFactory2::CreateSwapChainForHwnd`: a new swap chain with the
given descriptor, returned with one reference.  The new object is put in
front, so that a pointer always resolves to the newest object at its address. -/
def CreateSwapChainForHwnd (dev : Ptr) (hwnd : HWND) (desc : DXGI_SWAP_CHAIN_DESC1)
    (s : State) : Ptr × State :=
  let p := s.fresh + 1
  (p, emit (Call.CreateSwapChainForHwnd dev hwnd desc p)
    { s with chains := ⟨p, hwnd, desc⟩ :: s.chains, fresh := s.fresh + 1 })

/-- DXGI `IDXGISwapChain::ResizeBuffers`: a buffer count of `0` keeps the
current count; width, height and format are the concrete values `GetDesc1`
reported for the primary swap chain and are stored as given. -/
def ResizeBuffers (p : Ptr) (count width height format flags : Nat) (s : State) :
    Except Fault State := do
  let _ ← deref p s
  pure (emit (Call.ResizeBuffers p count width height format flags)
    { s with chains := s.chains.map (fun o =>
        if o.ptr = p then
          { o with desc :=
            { o.desc with
              Width := width
              Height := height
              Format := format
              BufferCount := if count = 0 then o.desc.BufferCount else count
              Flags := flags } }
        else o) })

/-- D3D11 `ID3D11View::GetResource`: the resource behind a view, with a
reference taken on it. -/
def GetResource (view : Nat) (s : State) : ComObj × State :=
  (ComObj.view_resource view, emit (Call.GetResource view) s)

/-- DXGI `IDXGISwapChain::GetBuffer`: a buffer of the swap chain, with a
reference taken on it. -/
def GetBuffer (p : Ptr) (index : Nat) (s : State) : Except Fault (ComObj × State) := do
  let _ ← deref p s
  pure (ComObj.back_buffer p index, emit (Call.GetBuffer p index) s)

/-- D3D11 `ID3D11DeviceContext::CopyResource`. -/
def CopyResource (context : Ptr) (dst src : ComObj) (s : State) : State :=
  emit (Call.CopyResource context dst src) s

/-- COM `IUnknown::Release`: gives one reference back; the swap chain has a
single reference, so releasing it destroys the object. -/
def Release (obj : ComObj) (s : State) : State :=
  emit (Call.Release obj)
    (match obj with
     | ComObj.swap_chain p => { s with chains := s.chains.filter (fun o => !(o.ptr == p)) }
     | _ => s)

/-- DXGI `IDXGISwapChain::Present`. -/
def Present (p : Ptr) (sync flags : Nat) (s : State) : Except Fault State := do
  let _ ← deref p s
  pure (emit (Call.Present p sync flags) s)

/-! ## The add-on (`src/mirage.cpp`) -/

/-- Source function `save_settings`. -/
def save_settings (s : State) : State :=
  let file : Settings := ⟨s.after_effects, s.hide_window, s.visible_x, s.visible_y⟩
  emit (Call.ini_write file) (emit Call.log_message { s with settings_file := some file })

/-- Source function `display_changed`; `uninit` is the content of the
uninitialised local `display_rect` and `monitors` what the system enumerates. -/
def display_changed (uninit : RECT) (monitors : List RECT) (s : State) : State :=
  let display_rect := EnumDisplayMonitors monitors uninit
  let s1 := { s with hidden_x := display_rect.left, hidden_y := wrap32 (display_rect.bottom + 100) }
  if s1.hide_window then
    SetWindowPos s1.mirror_window InsertAfter.HWND_BOTTOM s1.hidden_x s1.hidden_y 0 0
      { NOSIZE := true, NOMOVE := false, NOZORDER := true, NOACTIVATE := true, SHOWWINDOW := true } s1
  else s1

/-- Source function `init_device`. -/
def init_device (dev : device) (uninit : RECT) (monitors : List RECT) (s : State) : State :=
  if dev.api ≠ device_api.d3d11 then s
  else if s.owner_window ≠ 0 ∨ s.mirror_window ≠ 0 then s
  else
    let s1 := RegisterClassExW s
    let (owner, s2) := CreateWindowExW Parent.HWND_MESSAGE s1
    let s3 := { s2 with owner_window := owner }
    let (mirror, s4) := CreateWindowExW (Parent.window s3.owner_window) s3
    let s5 := { s4 with mirror_window := mirror }
    let s6 := display_changed uninit monitors s5
    let window_x := if s6.hide_window then s6.hidden_x else s6.visible_x
    let window_y := if s6.hide_window then s6.hidden_y else s6.visible_y
    let flags : SWP :=
      { NOSIZE := true, NOMOVE := false, NOZORDER := true, NOACTIVATE := s6.hide_window,
        SHOWWINDOW := true }
    let s7 := SetWindowPos s6.mirror_window InsertAfter.HWND_BOTTOM window_x window_y 0 0 flags s6
    let s8 := register_event Callback.destroy_device s7
    let s9 := register_event Callback.init_swapchain s8
    let s10 := register_event Callback.reshade_begin_effects s9
    let s11 := register_event Callback.reshade_finish_effects s10
    register_overlay Callback.draw_settings s11

/-- Source function `destroy_device`. -/
def destroy_device (s : State) : Except Fault State := do
  let _ ← deref s.mirror_swap_chain s
  let s1 := Release (ComObj.swap_chain s.mirror_swap_chain) s
  let s2 := DestroyWindow s1.owner_window s1
  let s3 := UnregisterClassW s2
  pure (save_settings s3)

/-- Source function `init_swapchain`. -/
def init_swapchain (sc : swapchain) (resize : Bool) (s : State) : Except Fault State := do
  if sc.hwnd = s.mirror_window then pure s
  else
    let source_desc := sc.desc
    let s1 ←
      if resize then
        ResizeBuffers s.mirror_swap_chain 0 source_desc.Width source_desc.Height source_desc.Format 0 s
      else
        let (dev, sa) := GetDevice sc s
        let (factory, sb) := CreateDXGIFactory1 sa
        let mirror_desc : DXGI_SWAP_CHAIN_DESC1 :=
          { source_desc with
            Stereo := false
            SampleCount := 1
            SampleQuality := 0
            BufferUsage := DXGI_USAGE_RENDER_TARGET_OUTPUT
            BufferCount := 2
            Scaling := DXGI_SCALING.NONE
            SwapEffect := DXGI_SWAP_EFFECT.FLIP_DISCARD
            Flags := 0 }
        let (chain, sc1) := CreateSwapChainForHwnd dev sb.mirror_window mirror_desc sb
        let sc2 := { sc1 with mirror_swap_chain := chain }
        let sc3 := { sc2 with multisampled := decide (source_desc.SampleCount > 1) }
        let sc4 := Release (ComObj.factory factory) sc3
        pure (Release (ComObj.device dev) sc4)
    let client_rect := sc.client_rect
    pure (SetWindowPos s1.mirror_window InsertAfter.HWND_BOTTOM 0 0 client_rect.right client_rect.bottom
      { NOSIZE := false, NOMOVE := true, NOZORDER := true, NOACTIVATE := true, SHOWWINDOW := true } s1)

/-- Source function `reshade_begin_effects`. -/
def reshade_begin_effects (runtime : effect_runtime) (rtv : resource_view) (s : State) :
    Except Fault State := do
  if s.after_effects || decide (runtime.hwnd = s.mirror_window) then pure s
  else
    let context := runtime.context
    let source_view := rtv.handle
    let (source, s1) := GetResource source_view s
    let (mirror, s2) ← GetBuffer s1.mirror_swap_chain 0 s1
    let s3 := CopyResource context mirror source s2
    let s4 := Release mirror s3
    let s5 := Release source s4
    Present s5.mirror_swap_chain 0 0 s5

/-- Source function `reshade_finish_effects`. -/
def reshade_finish_effects (runtime : effect_runtime) (rtv : resource_view) (s : State) :
    Except Fault State := do
  if !s.after_effects || decide (runtime.hwnd = s.mirror_window) then pure s
  else
    let context := runtime.context
    let source_view := rtv.handle
    let (source, s1) := GetResource source_view s
    let (mirror, s2) ← GetBuffer s1.mirror_swap_chain 0 s1
    let s3 := CopyResource context mirror source s2
    let s4 := Release mirror s3
    let s5 := Release source s4
    Present s5.mirror_swap_chain 0 0 s5

/-! ## Host event delivery -/

/-- Events the host delivers to the add-on. -/
inductive Event where
  | init_device (dev : device) (uninit : RECT) (monitors : List RECT)
  | destroy_device
  | init_swapchain (sc : swapchain) (resize : Bool)
  | reshade_begin_effects (runtime : effect_runtime) (rtv : resource_view)
  | reshade_finish_effects (runtime : effect_runtime) (rtv : resource_view)
deriving DecidableEq, Repr

/-- The callback an event is delivered to. -/
def Event.callback : Event → Callback
  | Event.init_device _ _ _ => Callback.init_device
  | Event.destroy_device => Callback.destroy_device
  | Event.init_swapchain _ _ => Callback.init_swapchain
  | Event.reshade_begin_effects _ _ => Callback.reshade_begin_effects
  | Event.reshade_finish_effects _ _ => Callback.reshade_finish_effects

/-- Run the handler of an event. -/
def handle : Event → State → Except Fault State
  | Event.init_device dev uninit monitors, s => pure (init_device dev uninit monitors s)
  | Event.destroy_device, s => destroy_device s
  | Event.init_swapchain sc resize, s => init_swapchain sc resize s
  | Event.reshade_begin_effects runtime rtv, s => reshade_begin_effects runtime rtv s
  | Event.reshade_finish_effects runtime rtv, s => reshade_finish_effects runtime rtv s

/-- The host invokes a handler only when the add-on has registered it. -/
def dispatch (e : Event) (s : State) : Except Fault State :=
  if e.callback ∈ s.registered then handle e s else pure s

/-- Deliver a sequence of events in order, stopping at the first fault. -/
def run : List Event → State → Except Fault State
  | [], s => pure s
  | e :: es, s => dispatch e s >>= run es

/-! ## Observations -/

/-- The mirror surface is live: the pointer is non-null and a swap chain
object is behind it. -/
def mirror_live (s : State) : Bool :=
  s.mirror_swap_chain != 0 && (find_chain s.mirror_swap_chain s).isSome

/-- Descriptor of the mirror surface, when it is live. -/
def mirror_surface_desc (s : State) : Option DXGI_SWAP_CHAIN_DESC1 :=
  if s.mirror_swap_chain = 0 then none
  else (find_chain s.mirror_swap_chain s).map (fun o => o.desc)

/-- A mirror descriptor derived from a primary of width `w`, height `h` and
format `f`: same size and format, single-sampled, not stereo, two buffers,
render-target usage, flip-discard presentation. -/
def mirror_derived (d : DXGI_SWAP_CHAIN_DESC1) (w h f : Nat) : Prop :=
  d.Width = w ∧ d.Height = h ∧ d.Format = f ∧ d.SampleCount = 1 ∧ d.Stereo = false ∧
  d.BufferCount = 2 ∧ d.BufferUsage = DXGI_USAGE_RENDER_TARGET_OUTPUT ∧
  d.SwapEffect = DXGI_SWAP_EFFECT.FLIP_DISCARD

instance (d : DXGI_SWAP_CHAIN_DESC1) (w h f : Nat) : Decidable (mirror_derived d w h f) := by
  unfold mirror_derived
  infer_instance

/-- References a call takes. -/
def Call.acquires : Call → List ComObj
  | Call.GetDevice p => [ComObj.device p]
  | Call.CreateDXGIFactory1 p => [ComObj.factory p]
  | Call.CreateSwapChainForHwnd _ _ _ p => [ComObj.swap_chain p]
  | Call.GetResource v => [ComObj.view_resource v]
  | Call.GetBuffer sc i => [ComObj.back_buffer sc i]
  | _ => []

/-- References a call gives back. -/
def Call.releases : Call → List ComObj
  | Call.Release o => [o]
  | _ => []

/-- References taken by a run of calls, in order. -/
def acquired (calls : List Call) : List ComObj :=
  calls.flatMap Call.acquires

/-- References given back by a run of calls, in order. -/
def released (calls : List Call) : List ComObj :=
  calls.flatMap Call.releases

/-- Net change of the reference count of `o` over a run of calls. -/
def ref_delta (calls : List Call) (o : ComObj) : Int :=
  ((acquired calls).count o : Int) - ((released calls).count o : Int)

/-- The resource copies in a run of calls. -/
def copies (calls : List Call) : List Call :=
  calls.filter (fun c => match c with
    | Call.CopyResource _ _ _ => true
    | _ => false)

/-- The presents in a run of calls. -/
def presents (calls : List Call) : List Call :=
  calls.filter (fun c => match c with
    | Call.Present _ _ _ => true
    | _ => false)

/-- The calls a copy hook issues when it is active. -/
def hook_calls (runtime : effect_runtime) (rtv : resource_view) (s : State) : List Call :=
  [ Call.GetResource rtv.handle,
    Call.GetBuffer s.mirror_swap_chain 0,
    Call.CopyResource runtime.context (ComObj.back_buffer s.mirror_swap_chain 0)
      (ComObj.view_resource rtv.handle),
    Call.Release (ComObj.back_buffer s.mirror_swap_chain 0),
    Call.Release (ComObj.view_resource rtv.handle),
    Call.Present s.mirror_swap_chain 0 0 ]

/-- One frame: the host calls the pre-late-effects hook, then the
post-late-effects hook. -/
def frame (runtime : effect_runtime) (rtv : resource_view) (s : State) : Except Fault State :=
  reshade_begin_effects runtime rtv s >>= reshade_finish_effects runtime rtv

/-- Bounding box of two rectangles. -/
def bounding_box (a b : RECT) : RECT :=
  ⟨min a.left b.left, min a.top b.top, max a.right b.right, max a.bottom b.bottom⟩

/-- The specification's bounding union of the display rectangles; with no
display it is the zero rectangle, whose corner is the origin. -/
def bounding_union : List RECT → RECT
  | [] => ⟨0, 0, 0, 0⟩
  | r :: rs => rs.foldl bounding_box r

/-- The specification's hidden anchor: left edge and bottom edge plus 100 of
the bounding union. -/
def hidden_anchor (monitors : List RECT) : Int × Int :=
  ((bounding_union monitors).left, (bounding_union monitors).bottom + 100)

/-! ## Concrete scenarios -/

/-- A Direct3D 11 device. -/
def d3d11_device : device := ⟨device_api.d3d11⟩

/-- Two monitors side by side, `(0,0,1920,1080)` and `(1920,0,3840,1080)`. -/
def two_monitors : List RECT := [⟨0, 0, 1920, 1080⟩, ⟨1920, 0, 3840, 1080⟩]

/-- The zero rectangle. -/
def zero_rect : RECT := ⟨0, 0, 0, 0⟩

/-- A primary swap chain on window 777 with the given size and sample count:
format 28, three buffers, blit presentation. -/
def primary (w h samples : Nat) : swapchain :=
  { hwnd := 777
    desc :=
      { Width := w, Height := h, Format := 28, Stereo := false, SampleCount := samples,
        SampleQuality := 0, BufferUsage := 32, BufferCount := 3,
        Scaling := DXGI_SCALING.STRETCH, SwapEffect := DXGI_SWAP_EFFECT.DISCARD,
        AlphaMode := 0, Flags := 2 }
    native_device := 900
    client_rect := ⟨0, 0, w, h⟩ }

/-- The effect runtime of the primary swap chain. -/
def primary_runtime : effect_runtime := ⟨777, 55⟩

/-- State after `init_device` on a Direct3D 11 device: the window pair
exists, no mirror surface yet. -/
def windows_created : State :=
  init_device d3d11_device zero_rect two_monitors initial

/-- State with a live mirror surface, as left by `init_device` followed by
the first `init_swapchain` for a 1920x1080 primary with four samples. -/
def surface_live : State :=
  { windows_created with
    mirror_swap_chain := 4
    multisampled := true
    windows :=
      [ ⟨1, Parent.HWND_MESSAGE, 0, 0, 0, 0, false⟩,
        ⟨2, Parent.window 1, 0, 1180, 1920, 1080, true⟩ ]
    chains :=
      [ ⟨4, 2,
          { Width := 1920, Height := 1080, Format := 28, Stereo := false, SampleCount := 1,
            SampleQuality := 0, BufferUsage := 32, BufferCount := 2,
            Scaling := DXGI_SCALING.NONE, SwapEffect := DXGI_SWAP_EFFECT.FLIP_DISCARD,
            AlphaMode := 0, Flags := 0 }⟩ ]
    fresh := 4
    trace := windows_created.trace ++
      [ Call.GetDevice 900,
        Call.CreateDXGIFactory1 3,
        Call.CreateSwapChainForHwnd 900 2
          { Width := 1920, Height := 1080, Format := 28, Stereo := false, SampleCount := 1,
            SampleQuality := 0, BufferUsage := 32, BufferCount := 2,
            Scaling := DXGI_SCALING.NONE, SwapEffect := DXGI_SWAP_EFFECT.FLIP_DISCARD,
            AlphaMode := 0, Flags := 0 } 4,
        Call.Release (ComObj.factory 3),
        Call.Release (ComObj.device 900),
        Call.SetWindowPos 2 InsertAfter.HWND_BOTTOM 0 0 1920 1080
          { NOSIZE := false, NOMOVE := true, NOZORDER := true, NOACTIVATE := true,
            SHOWWINDOW := true } ] }

/-! ## Frame Copy Engine -/

/-- A live mirror pointer dereferences to its object. -/
theorem deref_of_live (s : State) (hl : mirror_live s = true) :
    ∃ o, s.mirror_swap_chain ≠ 0 ∧ find_chain s.mirror_swap_chain s = some o := by
  unfold mirror_live at hl
  simp only [Bool.and_eq_true, bne_iff_ne, ne_eq] at hl
  obtain ⟨hne, hsome⟩ := hl
  obtain ⟨o, ho⟩ := Option.isSome_iff_exists.mp hsome
  exact ⟨o, hne, ho⟩

/-- The pre-late-effects hook, when it is the active one and the mirror
surface is live, appends exactly `hook_calls` and changes nothing else. -/
theorem begin_effects_active (s : State) (runtime : effect_runtime) (rtv : resource_view)
    (hmode : s.after_effects = false) (hw : runtime.hwnd ≠ s.mirror_window)
    (hl : mirror_live s = true) :
    reshade_begin_effects runtime rtv s
      = Except.ok { s with trace := s.trace ++ hook_calls runtime rtv s } := by
  obtain ⟨o, hne, ho⟩ := deref_of_live s hl
  simp only [find_chain] at ho
  simp [reshade_begin_effects, hmode, hw, GetResource, GetBuffer, deref, emit, CopyResource,
    Release, Present, find_chain, hne, ho, hook_calls, bind, Except.bind, pure, Except.pure]

/-- The post-late-effects hook, when it is the active one and the mirror
surface is live, appends exactly `hook_calls` and changes nothing else. -/
theorem finish_effects_active (s : State) (runtime : effect_runtime) (rtv : resource_view)
    (hmode : s.after_effects = true) (hw : runtime.hwnd ≠ s.mirror_window)
    (hl : mirror_live s = true) :
    reshade_finish_effects runtime rtv s
      = Except.ok { s with trace := s.trace ++ hook_calls runtime rtv s } := by
  obtain ⟨o, hne, ho⟩ := deref_of_live s hl
  simp only [find_chain] at ho
  simp [reshade_finish_effects, hmode, hw, GetResource, GetBuffer, deref, emit, CopyResource,
    Release, Present, find_chain, hne, ho, hook_calls, bind, Except.bind, pure, Except.pure]

/-- The pre-late-effects hook returns at once when the mode is
after-late-effects or the runtime is the mirror. -/
theorem begin_effects_skips (s : State) (runtime : effect_runtime) (rtv : resource_view)
    (h : s.after_effects = true ∨ runtime.hwnd = s.mirror_window) :
    reshade_begin_effects runtime rtv s = Except.ok s := by
  rcases h with h | h <;> simp [reshade_begin_effects, h, pure, Except.pure]

/-- The post-late-effects hook returns at once when the mode is
before-late-effects or the runtime is the mirror. -/
theorem finish_effects_skips (s : State) (runtime : effect_runtime) (rtv : resource_view)
    (h : s.after_effects = false ∨ runtime.hwnd = s.mirror_window) :
    reshade_finish_effects runtime rtv s = Except.ok s := by
  rcases h with h | h <;> simp [reshade_finish_effects, h, pure, Except.pure]

/-- What the calls of an active hook amount to: one copy from the resource
behind the view into buffer 0 of the mirror, one present with sync interval 0
and flags 0 issued after the copy, two references taken and the same two
given back. -/
theorem hook_calls_summary (runtime : effect_runtime) (rtv : resource_view) (s : State) :
    copies (hook_calls runtime rtv s)
        = [Call.CopyResource runtime.context (ComObj.back_buffer s.mirror_swap_chain 0)
            (ComObj.view_resource rtv.handle)] ∧
    presents (hook_calls runtime rtv s) = [Call.Present s.mirror_swap_chain 0 0] ∧
    (hook_calls runtime rtv s).indexOf
        (Call.CopyResource runtime.context (ComObj.back_buffer s.mirror_swap_chain 0)
          (ComObj.view_resource rtv.handle))
      < (hook_calls runtime rtv s).indexOf (Call.Present s.mirror_swap_chain 0 0) ∧
    acquired (hook_calls runtime rtv s)
        = [ComObj.view_resource rtv.handle, ComObj.back_buffer s.mirror_swap_chain 0] ∧
    released (hook_calls runtime rtv s)
        = [ComObj.back_buffer s.mirror_swap_chain 0, ComObj.view_resource rtv.handle] ∧
    ∀ o, ref_delta (hook_calls runtime rtv s) o = 0 := by
  refine ⟨by simp [copies, hook_calls], by simp [presents, hook_calls], ?_,
    by simp [acquired, hook_calls, Call.acquires], by simp [released, hook_calls, Call.releases], ?_⟩
  · simp [hook_calls, List.indexOf_cons]
  · intro o
    simp only [ref_delta, acquired, released, hook_calls, List.flatMap_cons, List.flatMap_nil,
      Call.acquires, Call.releases, List.append_nil, List.nil_append, List.singleton_append,
      List.count_cons, List.count_nil]
    by_cases h1 : ComObj.view_resource rtv.handle = o <;>
    by_cases h2 : ComObj.back_buffer s.mirror_swap_chain 0 = o <;>
    simp [h1, h2]

/-- Claim C1: in every state in which the mirror surface is live, for a runtime
whose window is not the Mirror Window, the hook selected by the Copy Timing
Mode (`reshade_begin_effects` when `after_effects` is false,
`reshade_finish_effects` when it is true) succeeds and changes the state only
by appending `hook_calls` to the trace.  Those calls contain exactly one
`CopyResource`, from the resource behind the supplied view into buffer 0 of
the mirror swap chain, then exactly one `Present` of the mirror surface with
sync interval 0 and flags 0; they take exactly two references (source, mirror
buffer) and give back exactly those two, so every reference count is
unchanged. -/
theorem active_hook_copies_and_presents_once (s : State) (runtime : effect_runtime)
    (rtv : resource_view) (hlive : mirror_live s = true)
    (hw : runtime.hwnd ≠ s.mirror_window) :
    (s.after_effects = false →
      reshade_begin_effects runtime rtv s
        = Except.ok { s with trace := s.trace ++ hook_calls runtime rtv s }) ∧
    (s.after_effects = true →
      reshade_finish_effects runtime rtv s
        = Except.ok { s with trace := s.trace ++ hook_calls runtime rtv s }) ∧
    copies (hook_calls runtime rtv s)
        = [Call.CopyResource runtime.context (ComObj.back_buffer s.mirror_swap_chain 0)
            (ComObj.view_resource rtv.handle)] ∧
    presents (hook_calls runtime rtv s) = [Call.Present s.mirror_swap_chain 0 0] ∧
    (hook_calls runtime rtv s).indexOf
        (Call.CopyResource runtime.context (ComObj.back_buffer s.mirror_swap_chain 0)
          (ComObj.view_resource rtv.handle))
      < (hook_calls runtime rtv s).indexOf (Call.Present s.mirror_swap_chain 0 0) ∧
    acquired (hook_calls runtime rtv s)
        = [ComObj.view_resource rtv.handle, ComObj.back_buffer s.mirror_swap_chain 0] ∧
    released (hook_calls runtime rtv s)
        = [ComObj.back_buffer s.mirror_swap_chain 0, ComObj.view_resource rtv.handle] ∧
    ∀ o, ref_delta (hook_calls runtime rtv s) o = 0 :=
  ⟨fun hmode => begin_effects_active s runtime rtv hmode hw hlive,
   fun hmode => finish_effects_active s runtime rtv hmode hw hlive,
   hook_calls_summary runtime rtv s⟩

/-- Witness for C1: on `surface_live` (mode after-late-effects) the
post-late-effects hook called for the primary runtime with view 66 appends
the six calls below. -/
theorem active_hook_copies_and_presents_once_witness :
    mirror_live surface_live = true ∧ primary_runtime.hwnd ≠ surface_live.mirror_window ∧
    surface_live.after_effects = true ∧
    reshade_finish_effects primary_runtime ⟨66⟩ surface_live
      = Except.ok { surface_live with trace := surface_live.trace ++
          [ Call.GetResource 66,
            Call.GetBuffer 4 0,
            Call.CopyResource 55 (ComObj.back_buffer 4 0) (ComObj.view_resource 66),
            Call.Release (ComObj.back_buffer 4 0),
            Call.Release (ComObj.view_resource 66),
            Call.Present 4 0 0 ] } :=
  ⟨by decide, by decide, by decide,
   (active_hook_copies_and_presents_once surface_live primary_runtime ⟨66⟩
      (by decide) (by decide)).2.1 (by decide)⟩

/-- An active hook called while the mirror surface is not live faults at
`GetBuffer`. -/
theorem begin_effects_not_live (s : State) (runtime : effect_runtime) (rtv : resource_view)
    (hmode : s.after_effects = false) (hw : runtime.hwnd ≠ s.mirror_window)
    (hl : mirror_live s = false) :
    ∃ f, reshade_begin_effects runtime rtv s = Except.error f := by
  unfold mirror_live at hl
  by_cases hp : s.mirror_swap_chain = 0
  · exact ⟨Fault.null_dereference, by
      simp [reshade_begin_effects, hmode, hw, GetResource, GetBuffer, deref, emit, hp, bind,
        Except.bind]⟩
  · have hnone : find_chain s.mirror_swap_chain s = none := by
      simpa [hp] using hl
    simp only [find_chain] at hnone
    exact ⟨Fault.dangling_pointer, by
      simp [reshade_begin_effects, hmode, hw, GetResource, GetBuffer, deref, emit, hp, bind,
        Except.bind, find_chain, hnone]⟩

/-- Claim C2, amended: the inactive hook does nothing.  In every state with
`after_effects = true`, `reshade_begin_effects` returns the state unchanged
(no call is added to the trace, so zero resource operations and zero
presents); in every state with `after_effects = false`,
`reshade_finish_effects` returns the state unchanged.  Consequently a frame
(both hooks called once, mode fixed) for a runtime that is not the mirror
behaves in every state exactly like the active hook alone, and when the
mirror surface is live it adds `hook_calls` to the trace, of which exactly one
is a copy and exactly one is a present. -/
theorem inactive_hook_does_nothing (s : State) (runtime : effect_runtime)
    (rtv : resource_view) :
    (s.after_effects = true → reshade_begin_effects runtime rtv s = Except.ok s) ∧
    (s.after_effects = false → reshade_finish_effects runtime rtv s = Except.ok s) ∧
    (runtime.hwnd ≠ s.mirror_window →
      frame runtime rtv s
        = if s.after_effects then reshade_finish_effects runtime rtv s
          else reshade_begin_effects runtime rtv s) ∧
    (mirror_live s = true → runtime.hwnd ≠ s.mirror_window →
      frame runtime rtv s
        = Except.ok { s with trace := s.trace ++ hook_calls runtime rtv s } ∧
      (copies (hook_calls runtime rtv s)).length = 1 ∧
      (presents (hook_calls runtime rtv s)).length = 1) := by
  have hframe : mirror_live s = true → runtime.hwnd ≠ s.mirror_window →
      frame runtime rtv s
        = Except.ok { s with trace := s.trace ++ hook_calls runtime rtv s } := by
    intro hl hw
    by_cases hmode : s.after_effects = true
    · have h1 := begin_effects_skips s runtime rtv (Or.inl hmode)
      have h2 := finish_effects_active s runtime rtv hmode hw hl
      simp only [frame, h1, bind, Except.bind]
      exact h2
    · have hmode : s.after_effects = false := by simpa using hmode
      have h1 := begin_effects_active s runtime rtv hmode hw hl
      have h2 := finish_effects_skips { s with trace := s.trace ++ hook_calls runtime rtv s }
        runtime rtv (Or.inl hmode)
      simp only [frame, h1, bind, Except.bind]
      exact h2
  refine ⟨fun h => begin_effects_skips s runtime rtv (Or.inl h),
    fun h => finish_effects_skips s runtime rtv (Or.inl h), ?_, ?_⟩
  · intro hw
    by_cases hmode : s.after_effects = true
    · have h1 := begin_effects_skips s runtime rtv (Or.inl hmode)
      simp only [frame, h1, bind, Except.bind, hmode, if_true]
    · have hmode : s.after_effects = false := by simpa using hmode
      rw [if_neg (by simp [hmode])]
      by_cases hl : mirror_live s = true
      · rw [hframe hl hw, begin_effects_active s runtime rtv hmode hw hl]
      · have hl : mirror_live s = false := by simpa using hl
        obtain ⟨f, hf⟩ := begin_effects_not_live s runtime rtv hmode hw hl
        simp only [frame, hf, bind, Except.bind]
  · intro hl hw
    refine ⟨hframe hl hw, ?_, ?_⟩
    · rw [(hook_calls_summary runtime rtv s).1]; rfl
    · rw [(hook_calls_summary runtime rtv s).2.1]; rfl

/-- Witness for C2: on `surface_live` (mode after-late-effects) the
pre-late-effects hook changes nothing, and the whole frame adds the six calls
of the post-late-effects hook, one copy and one present among them. -/
theorem inactive_hook_does_nothing_witness :
    surface_live.after_effects = true ∧
    reshade_begin_effects primary_runtime ⟨66⟩ surface_live = Except.ok surface_live ∧
    mirror_live surface_live = true ∧ primary_runtime.hwnd ≠ surface_live.mirror_window ∧
    frame primary_runtime ⟨66⟩ surface_live
      = Except.ok { surface_live with trace := surface_live.trace ++
          [ Call.GetResource 66,
            Call.GetBuffer 4 0,
            Call.CopyResource 55 (ComObj.back_buffer 4 0) (ComObj.view_resource 66),
            Call.Release (ComObj.back_buffer 4 0),
            Call.Release (ComObj.view_resource 66),
            Call.Present 4 0 0 ] } :=
  ⟨by decide,
   (inactive_hook_does_nothing surface_live primary_runtime ⟨66⟩).1 (by decide),
   by decide, by decide,
   ((inactive_hook_does_nothing surface_live primary_runtime ⟨66⟩).2.2.2
      (by decide) (by decide)).1⟩

/-- Counterexample for C2 as stated: in `windows_created` (mode
after-late-effects fixed, both hooks registered, no mirror surface yet) a
frame for the primary runtime, which is not the mirror, does not perform one
copy and one present: the active hook calls `GetBuffer` through the null
`mirror_swap_chain` and the frame ends in a null dereference, whether the
hooks are called directly or delivered by the host. -/
theorem frame_without_surface_faults :
    windows_created.after_effects = true ∧
    primary_runtime.hwnd ≠ windows_created.mirror_window ∧
    mirror_live windows_created = false ∧
    Callback.reshade_begin_effects ∈ windows_created.registered ∧
    Callback.reshade_finish_effects ∈ windows_created.registered ∧
    frame primary_runtime ⟨66⟩ windows_created = Except.error Fault.null_dereference ∧
    run [Event.init_device d3d11_device zero_rect two_monitors,
         Event.reshade_begin_effects primary_runtime ⟨66⟩,
         Event.reshade_finish_effects primary_runtime ⟨66⟩] initial
      = Except.error Fault.null_dereference :=
  ⟨by decide, by decide, by decide, by decide, by decide, rfl, rfl⟩

/-! ## Surface Lifecycle Manager -/

/-- The scenario state `surface_live` is what the host events produce. -/
theorem surface_live_reached :
    run [Event.init_device d3d11_device zero_rect two_monitors,
         Event.init_swapchain (primary 1920 1080 4) false] initial = Except.ok surface_live := by
  rfl

/-- Claim C9: events that come from the mirror itself are ignored.  In every
state, when the window of the swap chain equals the Mirror Window,
`init_swapchain` returns the state unchanged for both values of `resize`; when
the window of the runtime equals the Mirror Window, `reshade_begin_effects` and
`reshade_finish_effects` return the state unchanged whatever `after_effects`
is.  The trace is part of the state, so no swap chain is created, no buffer or
window is resized, nothing is copied and nothing is presented. -/
theorem mirror_events_are_ignored (s : State) :
    (∀ (sc : swapchain) (resize : Bool), sc.hwnd = s.mirror_window →
      init_swapchain sc resize s = Except.ok s) ∧
    (∀ (runtime : effect_runtime) (rtv : resource_view), runtime.hwnd = s.mirror_window →
      reshade_begin_effects runtime rtv s = Except.ok s ∧
      reshade_finish_effects runtime rtv s = Except.ok s) := by
  refine ⟨?_, ?_⟩
  · intro sc resize h
    simp [init_swapchain, h, pure, Except.pure]
  · intro runtime rtv h
    exact ⟨begin_effects_skips s runtime rtv (Or.inr h),
      finish_effects_skips s runtime rtv (Or.inr h)⟩

/-- Witness for C9: on `surface_live` the Mirror Window is window 2; a swap
chain on window 2 and a runtime on window 2 change nothing. -/
theorem mirror_events_are_ignored_witness :
    (2 : HWND) = surface_live.mirror_window ∧
    init_swapchain { primary 640 480 1 with hwnd := 2 } false surface_live
      = Except.ok surface_live ∧
    init_swapchain { primary 640 480 1 with hwnd := 2 } true surface_live
      = Except.ok surface_live ∧
    reshade_begin_effects ⟨2, 55⟩ ⟨66⟩ surface_live = Except.ok surface_live ∧
    reshade_finish_effects ⟨2, 55⟩ ⟨66⟩ surface_live = Except.ok surface_live :=
  ⟨by decide,
   (mirror_events_are_ignored surface_live).1 { primary 640 480 1 with hwnd := 2 } false
     (by decide),
   (mirror_events_are_ignored surface_live).1 { primary 640 480 1 with hwnd := 2 } true
     (by decide),
   (mirror_events_are_ignored surface_live).2 ⟨2, 55⟩ ⟨66⟩ (by decide)⟩

/-- When its guard fails, `init_device` returns the state as it is. -/
theorem init_device_skips (dev : device) (uninit : RECT) (monitors : List RECT) (s : State)
    (h : dev.api ≠ device_api.d3d11 ∨ s.owner_window ≠ 0 ∨ s.mirror_window ≠ 0) :
    init_device dev uninit monitors s = s := by
  unfold init_device
  by_cases hapi : dev.api = device_api.d3d11
  · rcases h with h | h
    · exact absurd hapi h
    · simp [hapi, h]
  · simp [hapi]

/-- When its guard passes, `init_device` leaves a non-null owner handle. -/
theorem init_device_sets_owner (dev : device) (uninit : RECT) (monitors : List RECT)
    (s : State) (hapi : dev.api = device_api.d3d11) (ho : s.owner_window = 0)
    (hm : s.mirror_window = 0) :
    (init_device dev uninit monitors s).owner_window = s.fresh + 1 := by
  obtain ⟨api⟩ := dev
  rcases s with ⟨ow, mw, msc, hx, hy, ms, ae, hw, vx, vy, cr, ws, cs, rg, sf, fr, tr⟩
  simp only at hapi ho hm
  subst hapi ho hm
  cases hw <;> rfl

/-- When its guard passes, `init_device` adds two windows with fresh handles
and registers the five callbacks. -/
theorem init_device_acts (dev : device) (uninit : RECT) (monitors : List RECT)
    (s : State) (hapi : dev.api = device_api.d3d11) (ho : s.owner_window = 0)
    (hm : s.mirror_window = 0) :
    (init_device dev uninit monitors s).windows.map Window.hwnd
        = s.windows.map Window.hwnd ++ [s.fresh + 1, s.fresh + 2] ∧
    (init_device dev uninit monitors s).registered
        = s.registered ++ [Callback.destroy_device, Callback.init_swapchain,
            Callback.reshade_begin_effects, Callback.reshade_finish_effects,
            Callback.draw_settings] := by
  obtain ⟨api⟩ := dev
  rcases s with ⟨ow, mw, msc, hx, hy, ms, ae, hw, vx, vy, cr, ws, cs, rg, sf, fr, tr⟩
  simp only at hapi ho hm
  subst hapi ho hm
  cases hw
  · refine ⟨?_, ?_⟩
    · simp [init_device, RegisterClassExW, CreateWindowExW, display_changed, SetWindowPos,
        register_event, register_overlay, emit, List.map_map, Function.comp_def,
        apply_ite Window.hwnd]
    · simp [init_device, RegisterClassExW, CreateWindowExW, display_changed, SetWindowPos,
        register_event, register_overlay, emit]
  · refine ⟨?_, ?_⟩
    · simp [init_device, RegisterClassExW, CreateWindowExW, display_changed, SetWindowPos,
        register_event, register_overlay, emit, List.map_map, Function.comp_def,
        apply_ite Window.hwnd]
    · simp [init_device, RegisterClassExW, CreateWindowExW, display_changed, SetWindowPos,
        register_event, register_overlay, emit]

/-- Claim C8: `init_device` is a no-op whenever its guard fails.  For a device
whose API is not d3d11, and for a state in which the owner or the mirror
window handle is already non-null, the call returns the state unchanged: no
window is created, no handler is registered, nothing is added to the trace.
Calling `init_device` twice in a row gives the same state as calling it once.
When the guard passes, the one call that acts creates two windows and
registers the five callbacks. -/
theorem init_device_guard (dev : device) (uninit : RECT) (monitors : List RECT) (s : State) :
    ((dev.api ≠ device_api.d3d11 ∨ s.owner_window ≠ 0 ∨ s.mirror_window ≠ 0) →
      init_device dev uninit monitors s = s) ∧
    (∀ (uninit2 : RECT) (monitors2 : List RECT),
      init_device dev uninit2 monitors2 (init_device dev uninit monitors s)
        = init_device dev uninit monitors s) ∧
    (dev.api = device_api.d3d11 → s.owner_window = 0 → s.mirror_window = 0 →
      (init_device dev uninit monitors s).windows.map Window.hwnd
          = s.windows.map Window.hwnd ++ [s.fresh + 1, s.fresh + 2] ∧
      (init_device dev uninit monitors s).registered
          = s.registered ++ [Callback.destroy_device, Callback.init_swapchain,
              Callback.reshade_begin_effects, Callback.reshade_finish_effects,
              Callback.draw_settings]) := by
  refine ⟨init_device_skips dev uninit monitors s, ?_, ?_⟩
  · intro u2 m2
    by_cases h : dev.api ≠ device_api.d3d11 ∨ s.owner_window ≠ 0 ∨ s.mirror_window ≠ 0
    · rw [init_device_skips dev uninit monitors s h]
      exact init_device_skips dev u2 m2 s h
    · simp only [not_or, ne_eq, not_not] at h
      apply init_device_skips
      right; left
      rw [init_device_sets_owner dev uninit monitors s h.1 h.2.1 h.2.2]
      exact Nat.succ_ne_zero _
  · intro hapi ho hm
    exact init_device_acts dev uninit monitors s hapi ho hm

/-- Witness for C8: from the initial state the first call on a Direct3D 11
device creates windows 1 and 2; a second call, and a call on a Vulkan device,
change nothing. -/
theorem init_device_guard_witness :
    windows_created.owner_window ≠ 0 ∧
    init_device d3d11_device ⟨5, 5, 9, 9⟩ [] windows_created = windows_created ∧
    init_device ⟨device_api.vulkan⟩ zero_rect two_monitors initial = initial ∧
    windows_created.windows.map Window.hwnd = [1, 2] :=
  ⟨by decide,
   (init_device_guard d3d11_device ⟨5, 5, 9, 9⟩ [] windows_created).1 (Or.inr (Or.inl (by decide))),
   (init_device_guard ⟨device_api.vulkan⟩ zero_rect two_monitors initial).1 (Or.inl (by decide)),
   ((init_device_guard d3d11_device zero_rect two_monitors initial).2.2 rfl rfl rfl).1⟩

/-- Looking a pointer up after a pointer-preserving update of every object
gives the updated object. -/
theorem find_after_update (p : Ptr) (f : SwapChainObj → SwapChainObj)
    (hf : ∀ o, (f o).ptr = o.ptr) (l : List SwapChainObj) :
    (l.map f).find? (fun o => o.ptr == p) = (l.find? (fun o => o.ptr == p)).map f := by
  induction l with
  | nil => rfl
  | cons a l ih =>
    simp only [List.map_cons, List.find?_cons, hf]
    cases h : (a.ptr == p)
    · simpa using ih
    · simp

/-- The first `init_swapchain` for a primary creates a mirror surface whose
descriptor is the primary's with the seven fields the source overwrites. -/
theorem init_swapchain_creates (s : State) (sc : swapchain)
    (hw : sc.hwnd ≠ s.mirror_window) :
    ∃ t, init_swapchain sc false s = Except.ok t ∧
      mirror_surface_desc t = some
        { sc.desc with
          Stereo := false
          SampleCount := 1
          SampleQuality := 0
          BufferUsage := DXGI_USAGE_RENDER_TARGET_OUTPUT
          BufferCount := 2
          Scaling := DXGI_SCALING.NONE
          SwapEffect := DXGI_SWAP_EFFECT.FLIP_DISCARD
          Flags := 0 } ∧
      t.multisampled = decide (sc.desc.SampleCount > 1) := by
  simp only [init_swapchain, hw, if_false, GetDevice, CreateDXGIFactory1,
    CreateSwapChainForHwnd, Release, SetWindowPos, emit, bind, Except.bind, pure, Except.pure,
    Bool.false_eq_true]
  refine ⟨_, rfl, ?_, rfl⟩
  simp [mirror_surface_desc, find_chain]

/-- A later `init_swapchain` with `resize = true` on a live mirror surface
succeeds and replaces width, height and format (and sets the flags to 0) in
the mirror descriptor, leaving its other fields as they were. -/
theorem init_swapchain_resizes (s : State) (sc : swapchain) (d : DXGI_SWAP_CHAIN_DESC1)
    (hw : sc.hwnd ≠ s.mirror_window) (hd : mirror_surface_desc s = some d) :
    ∃ t, init_swapchain sc true s = Except.ok t ∧
      mirror_surface_desc t = some
        { d with
          Width := sc.desc.Width
          Height := sc.desc.Height
          Format := sc.desc.Format
          Flags := 0 } := by
  unfold mirror_surface_desc at hd
  by_cases hp : s.mirror_swap_chain = 0
  · simp [hp] at hd
  · simp only [hp, if_false, Option.map_eq_some'] at hd
    obtain ⟨o, ho, hod⟩ := hd
    simp only [init_swapchain, hw, if_false, if_true, ResizeBuffers, deref, hp, ho,
      SetWindowPos, emit, bind, Except.bind, pure, Except.pure]
    refine ⟨_, rfl, ?_⟩
    · simp only [mirror_surface_desc, hp, if_false, find_chain]
      rw [find_after_update s.mirror_swap_chain _ (fun o => by split <;> rfl) s.chains]
      simp only [find_chain] at ho
      have hptr : o.ptr = s.mirror_swap_chain := by
        have := List.find?_some ho
        simpa using this
      simp [ho, hptr, hod]

/-- Claim C3: after a primary-surface-ready event that is not about the mirror
itself, the mirror descriptor is derived from the primary's.  With
`resize = false` the call succeeds and the new mirror surface has the
primary's width, height and format, sample count 1, stereo off, buffer count
2, render-target usage and flip-discard presentation.  With `resize = true`
on a live mirror surface with descriptor `d` the call succeeds and the mirror
descriptor is `d` with the primary's width, height and format (and flags 0):
sample count, buffer count, swap effect, scaling, stereo flag and usage are
those of `d`, so a derived descriptor stays derived (sample count 1, buffer
count 2, flip-discard), whatever the primary's sample count is. -/
theorem mirror_descriptor_follows_primary (s : State) (sc : swapchain)
    (hw : sc.hwnd ≠ s.mirror_window) :
    ((init_swapchain sc false s).map mirror_surface_desc
        = Except.ok (some
            { Width := sc.desc.Width
              Height := sc.desc.Height
              Format := sc.desc.Format
              Stereo := false
              SampleCount := 1
              SampleQuality := 0
              BufferUsage := DXGI_USAGE_RENDER_TARGET_OUTPUT
              BufferCount := 2
              Scaling := DXGI_SCALING.NONE
              SwapEffect := DXGI_SWAP_EFFECT.FLIP_DISCARD
              AlphaMode := sc.desc.AlphaMode
              Flags := 0 })) ∧
    (∀ d, mirror_surface_desc s = some d →
      (init_swapchain sc true s).map mirror_surface_desc
          = Except.ok (some
              { Width := sc.desc.Width
                Height := sc.desc.Height
                Format := sc.desc.Format
                Stereo := d.Stereo
                SampleCount := d.SampleCount
                SampleQuality := d.SampleQuality
                BufferUsage := d.BufferUsage
                BufferCount := d.BufferCount
                Scaling := d.Scaling
                SwapEffect := d.SwapEffect
                AlphaMode := d.AlphaMode
                Flags := 0 }) ∧
      (∀ w0 h0 f0, mirror_derived d w0 h0 f0 →
        mirror_derived
          { d with
            Width := sc.desc.Width
            Height := sc.desc.Height
            Format := sc.desc.Format
            Flags := 0 }
          sc.desc.Width sc.desc.Height sc.desc.Format)) := by
  refine ⟨?_, ?_⟩
  · obtain ⟨t, ht, hd, _⟩ := init_swapchain_creates s sc hw
    rw [ht]
    simp only [Except.map, hd]
  · intro d hd
    obtain ⟨t, ht, he⟩ := init_swapchain_resizes s sc d hw hd
    refine ⟨?_, ?_⟩
    · rw [ht]
      simp only [Except.map, he]
    · intro w0 h0 f0 hder
      obtain ⟨_, _, _, h4, h5, h6, h7, h8⟩ := hder
      exact ⟨rfl, rfl, rfl, h4, h5, h6, h7, h8⟩

/-- Witness for C3: creation for a 1920x1080 primary with four samples, then
a resize to a 2560x1440 primary with eight samples; the mirror buffers become
2560x1440 with sample count 1 and buffer count 2. -/
theorem mirror_descriptor_follows_primary_witness :
    (primary 1920 1080 4).hwnd ≠ windows_created.mirror_window ∧
    (init_swapchain (primary 1920 1080 4) false windows_created).map mirror_surface_desc
      = Except.ok (some
          { Width := 1920, Height := 1080, Format := 28, Stereo := false, SampleCount := 1,
            SampleQuality := 0, BufferUsage := 32, BufferCount := 2,
            Scaling := DXGI_SCALING.NONE, SwapEffect := DXGI_SWAP_EFFECT.FLIP_DISCARD,
            AlphaMode := 0, Flags := 0 }) ∧
    (primary 2560 1440 8).hwnd ≠ surface_live.mirror_window ∧
    (init_swapchain (primary 2560 1440 8) true surface_live).map mirror_surface_desc
      = Except.ok (some
          { Width := 2560, Height := 1440, Format := 28, Stereo := false, SampleCount := 1,
            SampleQuality := 0, BufferUsage := 32, BufferCount := 2,
            Scaling := DXGI_SCALING.NONE, SwapEffect := DXGI_SWAP_EFFECT.FLIP_DISCARD,
            AlphaMode := 0, Flags := 0 }) :=
  ⟨by decide,
   (mirror_descriptor_follows_primary windows_created (primary 1920 1080 4) (by decide)).1,
   by decide,
   ((mirror_descriptor_follows_primary surface_live (primary 2560 1440 8) (by decide)).2
      _ (rfl : mirror_surface_desc surface_live = some _)).1⟩

/-! ## Teardown and degenerate orders -/

/-- Calling `destroy_device` with a null mirror pointer is a null
dereference. -/
theorem destroy_device_null (s : State) (h : s.mirror_swap_chain = 0) :
    destroy_device s = Except.error Fault.null_dereference := by
  simp [destroy_device, deref, h, bind, Except.bind]

/-- Calling `init_swapchain` with `resize = true` and a null mirror pointer,
for a swap chain that is not the mirror, is a null dereference. -/
theorem init_swapchain_resize_null (s : State) (sc : swapchain)
    (hw : sc.hwnd ≠ s.mirror_window) (h : s.mirror_swap_chain = 0) :
    init_swapchain sc true s = Except.error Fault.null_dereference := by
  simp [init_swapchain, hw, ResizeBuffers, deref, h, bind, Except.bind]

/-- A successful `destroy_device` writes none of the three handles; it only
removes the swap chain objects at the mirror pointer. -/
theorem destroy_device_keeps_handles (s t : State) (h : destroy_device s = Except.ok t) :
    t.owner_window = s.owner_window ∧ t.mirror_window = s.mirror_window ∧
    t.mirror_swap_chain = s.mirror_swap_chain ∧ s.mirror_swap_chain ≠ 0 ∧
    t.chains = s.chains.filter (fun o => !(o.ptr == s.mirror_swap_chain)) := by
  unfold destroy_device at h
  by_cases hp : s.mirror_swap_chain = 0
  · simp [deref, hp, bind, Except.bind] at h
  · cases hd : deref s.mirror_swap_chain s with
    | error f => simp [hd, bind, Except.bind] at h
    | ok o =>
      simp only [hd, bind, Except.bind, pure, Except.pure, Except.ok.injEq] at h
      subst h
      cases s
      exact ⟨rfl, rfl, rfl, hp, rfl⟩

/-- After every successful `destroy_device` the mirror pointer is non-null
and no live swap chain is behind it. -/
theorem destroy_device_leaves_dangling (s t : State) (h : destroy_device s = Except.ok t) :
    t.mirror_swap_chain ≠ 0 ∧ mirror_live t = false := by
  obtain ⟨_, _, h3, h4, h5⟩ := destroy_device_keeps_handles s t h
  refine ⟨by rw [h3]; exact h4, ?_⟩
  have hnone : find_chain t.mirror_swap_chain t = none := by
    simp only [find_chain, h3, h5, List.find?_eq_none]
    intro x hx
    have := (List.mem_filter.mp hx).2
    simpa using this
  simp [mirror_live, hnone]

/-- After every successful `destroy_device` from a state with a non-null
window handle, `init_device` is skipped by its re-entry guard. -/
theorem init_device_skipped_after_destroy (dev : device) (uninit : RECT)
    (monitors : List RECT) (s t : State) (h : destroy_device s = Except.ok t)
    (hwin : s.owner_window ≠ 0 ∨ s.mirror_window ≠ 0) :
    init_device dev uninit monitors t = t := by
  obtain ⟨h1, h2, _⟩ := destroy_device_keeps_handles s t h
  apply init_device_skips
  right
  rw [h1, h2]
  exact hwin

/-- Claim C4, evaluated on the event sequence device-ready (Direct3D 11),
primary-surface-ready (creation), device-destroyed from the initial state:
`mirror_swap_chain` is null before the creation, is 4 and live after it, and
is still 4 after `destroy_device`, although the swap chain behind it has been
released. -/
theorem mirror_pointer_dangles_after_destroy :
    (run [Event.init_device d3d11_device zero_rect two_monitors] initial).map
        (fun s => (s.mirror_swap_chain, mirror_live s)) = Except.ok (0, false) ∧
    (run [Event.init_device d3d11_device zero_rect two_monitors,
          Event.init_swapchain (primary 1920 1080 4) false] initial).map
        (fun s => (s.mirror_swap_chain, mirror_live s)) = Except.ok (4, true) ∧
    (run [Event.init_device d3d11_device zero_rect two_monitors,
          Event.init_swapchain (primary 1920 1080 4) false,
          Event.destroy_device] initial).map
        (fun s => (s.mirror_swap_chain, mirror_live s, s.chains)) = Except.ok (4, false, []) :=
  ⟨rfl, rfl, rfl⟩

/-- Claim C5, evaluated where initialization never completed: in the initial
state and right after `init_device` on a Direct3D 11 device (windows created,
no mirror surface) `destroy_device` calls `Release` through the null
`mirror_swap_chain`; the host reaches the second case by delivering
device-ready then device-destroyed. -/
theorem destroy_device_faults_without_surface :
    windows_created.mirror_swap_chain = 0 ∧
    destroy_device initial = Except.error Fault.null_dereference ∧
    destroy_device windows_created = Except.error Fault.null_dereference ∧
    run [Event.init_device d3d11_device zero_rect two_monitors, Event.destroy_device] initial
      = Except.error Fault.null_dereference :=
  ⟨rfl, rfl, rfl, rfl⟩

/-- Claim C6, evaluated on device-ready (Direct3D 11), primary-surface-ready
(creation), device-destroyed from the initial state: both windows are gone
and the class is unregistered, yet `owner_window`, `mirror_window` and
`mirror_swap_chain` keep the values 1, 2 and 4, so the next `init_device` on
a Direct3D 11 device fails the re-entry guard and creates no window. -/
theorem handles_survive_destroy_device :
    (run [Event.init_device d3d11_device zero_rect two_monitors,
          Event.init_swapchain (primary 1920 1080 4) false,
          Event.destroy_device] initial).map
        (fun s => (s.owner_window, s.mirror_window, s.mirror_swap_chain, s.windows,
          s.class_registered)) = Except.ok (1, 2, 4, [], false) ∧
    (run [Event.init_device d3d11_device zero_rect two_monitors,
          Event.init_swapchain (primary 1920 1080 4) false,
          Event.destroy_device,
          Event.init_device d3d11_device zero_rect two_monitors] initial)
      = (run [Event.init_device d3d11_device zero_rect two_monitors,
          Event.init_swapchain (primary 1920 1080 4) false,
          Event.destroy_device] initial) ∧
    (run [Event.init_device d3d11_device zero_rect two_monitors,
          Event.init_swapchain (primary 1920 1080 4) false,
          Event.destroy_device,
          Event.init_device d3d11_device zero_rect two_monitors] initial).map
        (fun s => s.windows) = Except.ok [] :=
  ⟨rfl, rfl, rfl⟩

/-- Claim C10, evaluated right after `init_device` on a Direct3D 11 device:
`init_swapchain` with `resize = true` before any call with `resize = false`
calls `ResizeBuffers` through the null `mirror_swap_chain`. -/
theorem resize_before_creation_faults :
    windows_created.mirror_swap_chain = 0 ∧
    init_swapchain (primary 1920 1080 1) true windows_created
      = Except.error Fault.null_dereference ∧
    run [Event.init_device d3d11_device zero_rect two_monitors,
         Event.init_swapchain (primary 1920 1080 1) true] initial
      = Except.error Fault.null_dereference :=
  ⟨rfl, rfl, rfl⟩

/-! ## Geometry Resolver -/

/-- With no display enumerated the anchor is read from the uninitialised
rectangle. -/
theorem display_changed_no_monitor (uninit : RECT) (s : State) :
    (display_changed uninit [] s).hidden_x = uninit.left ∧
    (display_changed uninit [] s).hidden_y = wrap32 (uninit.bottom + 100) := by
  unfold display_changed
  dsimp only [EnumDisplayMonitors, List.foldl]
  split <;> exact ⟨rfl, rfl⟩

/-- A rectangle is non-empty when it has positive width and height. -/
theorem not_empty_iff (r : RECT) :
    IsRectEmpty r = false ↔ r.left < r.right ∧ r.top < r.bottom := by
  simp [IsRectEmpty]

/-- On two non-empty rectangles `UnionRect` is the bounding box, and the
result is non-empty. -/
theorem UnionRect_of_not_empty (a b : RECT) (ha : IsRectEmpty a = false)
    (hb : IsRectEmpty b = false) :
    UnionRect a b = bounding_box a b ∧ IsRectEmpty (bounding_box a b) = false := by
  refine ⟨by simp [UnionRect, ha, hb, bounding_box], ?_⟩
  rw [not_empty_iff] at ha hb ⊢
  simp only [bounding_box]
  constructor
  · exact lt_of_le_of_lt (min_le_left _ _) (lt_of_lt_of_le ha.1 (le_max_left _ _))
  · exact lt_of_le_of_lt (min_le_left _ _) (lt_of_lt_of_le ha.2 (le_max_left _ _))

/-- Folding `UnionRect` over non-empty rectangles from a non-empty start is
folding the bounding box. -/
theorem fold_UnionRect_of_not_empty (rs : List RECT) (acc : RECT)
    (hacc : IsRectEmpty acc = false) (hrs : ∀ r ∈ rs, IsRectEmpty r = false) :
    rs.foldl (fun a rect => UnionRect a rect) acc = rs.foldl bounding_box acc := by
  induction rs generalizing acc with
  | nil => rfl
  | cons r rs ih =>
    have hr := hrs r (List.mem_cons_self r rs)
    obtain ⟨h1, h2⟩ := UnionRect_of_not_empty acc r hacc hr
    simp only [List.foldl_cons, h1]
    exact ih _ h2 (fun x hx => hrs x (List.mem_cons_of_mem r hx))

/-- Had `display_rect` been zero-initialised, `display_changed` would compute
the specification's anchor for every list of (non-empty) display rectangles,
including the empty list. -/
theorem display_changed_zeroed (monitors : List RECT) (s : State)
    (hm : ∀ r ∈ monitors, IsRectEmpty r = false) :
    (display_changed zero_rect monitors s).hidden_x = (hidden_anchor monitors).1 ∧
    (display_changed zero_rect monitors s).hidden_y = wrap32 (hidden_anchor monitors).2 := by
  have hrect : EnumDisplayMonitors monitors zero_rect = bounding_union monitors := by
    cases monitors with
    | nil => rfl
    | cons r rs =>
      have hr := hm r (List.mem_cons_self r rs)
      have hz : IsRectEmpty zero_rect = true := rfl
      have h0 : UnionRect zero_rect r = r := by
        simp [UnionRect, hr, hz]
      simp only [EnumDisplayMonitors, List.foldl_cons, h0, bounding_union]
      exact fold_UnionRect_of_not_empty rs r hr (fun x hx => hm x (List.mem_cons_of_mem r hx))
  unfold display_changed hidden_anchor
  simp only [hrect]
  split <;> exact ⟨rfl, rfl⟩

/-- Claim C7, evaluated: when the uninitialised `display_rect` happens to
hold the zero rectangle, the monitors `(0,0,1920,1080)` and
`(1920,0,3840,1080)` give the anchor `(0, 1180)` and no monitor gives
`(0, 100)`, as the specification says; when it holds `(-5,-5,5000,5000)` the
same two monitors give `(-5, 5100)`, and when it holds `(7,7,9,9)` no monitor
gives `(7, 109)`. -/
theorem anchor_depends_on_uninitialised_rect :
    hidden_anchor two_monitors = (0, 1180) ∧ hidden_anchor [] = (0, 100) ∧
    ((display_changed zero_rect two_monitors initial).hidden_x,
      (display_changed zero_rect two_monitors initial).hidden_y) = (0, 1180) ∧
    ((display_changed zero_rect [] initial).hidden_x,
      (display_changed zero_rect [] initial).hidden_y) = (0, 100) ∧
    ((display_changed ⟨-5, -5, 5000, 5000⟩ two_monitors initial).hidden_x,
      (display_changed ⟨-5, -5, 5000, 5000⟩ two_monitors initial).hidden_y) = (-5, 5100) ∧
    ((display_changed ⟨7, 7, 9, 9⟩ [] initial).hidden_x,
      (display_changed ⟨7, 7, 9, 9⟩ [] initial).hidden_y) = (7, 109) := by
  decide

end Mirage
